import Mathlib

/-
  Verification development for the neutralNEMO repository.

  The equation-of-state kernel (src/neutralNEMO/eos.py) is embedded over the
  real numbers: Python floats become elements of ℝ, numpy sqrt and abs become
  Real.sqrt and the absolute value, and a Python function that can return None
  becomes an Option-valued function.  The grid builder (src/neutralNEMO/grid.py)
  is embedded over ℚ with xarray DataArrays modelled as shaped total functions,
  and a Python raise becomes an Except.error result.

  The per-variant coefficient tables below are transcribed directly from the
  corresponding assignment blocks of eos.py; the suffix _t10 marks the teos10
  branch and _e80 the eos80 branch.
-/

noncomputable def rdeltaS_t10 : ℝ := 32
noncomputable def r1_S0_t10 : ℝ := 0.875/35.16504
noncomputable def r1_T0_t10 : ℝ := 1/40
noncomputable def r1_Z0_t10 : ℝ := 1e-4
noncomputable def EOS000_t10 : ℝ := 8.0189615746e+02
noncomputable def EOS100_t10 : ℝ := 8.6672408165e+02
noncomputable def EOS200_t10 : ℝ := -1.7864682637e+03
noncomputable def EOS300_t10 : ℝ := 2.0375295546e+03
noncomputable def EOS400_t10 : ℝ := -1.2849161071e+03
noncomputable def EOS500_t10 : ℝ := 4.3227585684e+02
noncomputable def EOS600_t10 : ℝ := -6.0579916612e+01
noncomputable def EOS010_t10 : ℝ := 2.6010145068e+01
noncomputable def EOS110_t10 : ℝ := -6.5281885265e+01
noncomputable def EOS210_t10 : ℝ := 8.1770425108e+01
noncomputable def EOS310_t10 : ℝ := -5.6888046321e+01
noncomputable def EOS410_t10 : ℝ := 1.7681814114e+01
noncomputable def EOS510_t10 : ℝ := -1.9193502195
noncomputable def EOS020_t10 : ℝ := -3.7074170417e+01
noncomputable def EOS120_t10 : ℝ := 6.1548258127e+01
noncomputable def EOS220_t10 : ℝ := -6.0362551501e+01
noncomputable def EOS320_t10 : ℝ := 2.9130021253e+01
noncomputable def EOS420_t10 : ℝ := -5.4723692739
noncomputable def EOS030_t10 : ℝ := 2.1661789529e+01
noncomputable def EOS130_t10 : ℝ := -3.3449108469e+01
noncomputable def EOS230_t10 : ℝ := 1.9717078466e+01
noncomputable def EOS330_t10 : ℝ := -3.1742946532
noncomputable def EOS040_t10 : ℝ := -8.3627885467
noncomputable def EOS140_t10 : ℝ := 1.1311538584e+01
noncomputable def EOS240_t10 : ℝ := -5.3563304045
noncomputable def EOS050_t10 : ℝ := 5.4048723791e-01
noncomputable def EOS150_t10 : ℝ := 4.8169980163e-01
noncomputable def EOS060_t10 : ℝ := -1.9083568888e-01
noncomputable def EOS001_t10 : ℝ := 1.9681925209e+01
noncomputable def EOS101_t10 : ℝ := -4.2549998214e+01
noncomputable def EOS201_t10 : ℝ := 5.0774768218e+01
noncomputable def EOS301_t10 : ℝ := -3.0938076334e+01
noncomputable def EOS401_t10 : ℝ := 6.6051753097
noncomputable def EOS011_t10 : ℝ := -1.3336301113e+01
noncomputable def EOS111_t10 : ℝ := -4.4870114575
noncomputable def EOS211_t10 : ℝ := 5.0042598061
noncomputable def EOS311_t10 : ℝ := -6.5399043664e-01
noncomputable def EOS021_t10 : ℝ := 6.7080479603
noncomputable def EOS121_t10 : ℝ := 3.5063081279
noncomputable def EOS221_t10 : ℝ := -1.8795372996
noncomputable def EOS031_t10 : ℝ := -2.4649669534
noncomputable def EOS131_t10 : ℝ := -5.5077101279e-01
noncomputable def EOS041_t10 : ℝ := 5.5927935970e-01
noncomputable def EOS002_t10 : ℝ := 2.0660924175
noncomputable def EOS102_t10 : ℝ := -4.9527603989
noncomputable def EOS202_t10 : ℝ := 2.5019633244
noncomputable def EOS012_t10 : ℝ := 2.0564311499
noncomputable def EOS112_t10 : ℝ := -2.1311365518e-01
noncomputable def EOS022_t10 : ℝ := -1.2419983026
noncomputable def EOS003_t10 : ℝ := -2.3342758797e-02
noncomputable def EOS103_t10 : ℝ := -1.8507636718e-02
noncomputable def EOS013_t10 : ℝ := 3.7969820455e-01
noncomputable def rdeltaS_e80 : ℝ := 20
noncomputable def r1_S0_e80 : ℝ := 1/40
noncomputable def r1_T0_e80 : ℝ := 1/40
noncomputable def r1_Z0_e80 : ℝ := 1e-4
noncomputable def EOS000_e80 : ℝ := 9.5356891948e+02
noncomputable def EOS100_e80 : ℝ := 1.7136499189e+02
noncomputable def EOS200_e80 : ℝ := -3.7501039454e+02
noncomputable def EOS300_e80 : ℝ := 5.1856810420e+02
noncomputable def EOS400_e80 : ℝ := -3.7264470465e+02
noncomputable def EOS500_e80 : ℝ := 1.4302533998e+02
noncomputable def EOS600_e80 : ℝ := -2.2856621162e+01
noncomputable def EOS010_e80 : ℝ := 1.0087518651e+01
noncomputable def EOS110_e80 : ℝ := -1.3647741861e+01
noncomputable def EOS210_e80 : ℝ := 8.8478359933
noncomputable def EOS310_e80 : ℝ := -7.2329388377
noncomputable def EOS410_e80 : ℝ := 1.4774410611
noncomputable def EOS510_e80 : ℝ := 2.0036720553e-01
noncomputable def EOS020_e80 : ℝ := -2.5579830599e+01
noncomputable def EOS120_e80 : ℝ := 2.4043512327e+01
noncomputable def EOS220_e80 : ℝ := -1.6807503990e+01
noncomputable def EOS320_e80 : ℝ := 8.3811577084
noncomputable def EOS420_e80 : ℝ := -1.9771060192
noncomputable def EOS030_e80 : ℝ := 1.6846451198e+01
noncomputable def EOS130_e80 : ℝ := -2.1482926901e+01
noncomputable def EOS230_e80 : ℝ := 1.0108954054e+01
noncomputable def EOS330_e80 : ℝ := -6.2675951440e-01
noncomputable def EOS040_e80 : ℝ := -8.0812310102
noncomputable def EOS140_e80 : ℝ := 1.0102374985e+01
noncomputable def EOS240_e80 : ℝ := -4.8340368631
noncomputable def EOS050_e80 : ℝ := 1.2079167803
noncomputable def EOS150_e80 : ℝ := 1.1515380987e-01
noncomputable def EOS060_e80 : ℝ := -2.4520288837e-01
noncomputable def EOS001_e80 : ℝ := 1.0748601068e+01
noncomputable def EOS101_e80 : ℝ := -1.7817043500e+01
noncomputable def EOS201_e80 : ℝ := 2.2181366768e+01
noncomputable def EOS301_e80 : ℝ := -1.6750916338e+01
noncomputable def EOS401_e80 : ℝ := 4.1202230403
noncomputable def EOS011_e80 : ℝ := -1.5852644587e+01
noncomputable def EOS111_e80 : ℝ := -7.6639383522e-01
noncomputable def EOS211_e80 : ℝ := 4.1144627302
noncomputable def EOS311_e80 : ℝ := -6.6955877448e-01
noncomputable def EOS021_e80 : ℝ := 9.9994861860
noncomputable def EOS121_e80 : ℝ := -1.9467067787e-01
noncomputable def EOS221_e80 : ℝ := -1.2177554330
noncomputable def EOS031_e80 : ℝ := -3.4866102017
noncomputable def EOS131_e80 : ℝ := 2.2229155620e-01
noncomputable def EOS041_e80 : ℝ := 5.9503008642e-01
noncomputable def EOS002_e80 : ℝ := 1.0375676547
noncomputable def EOS102_e80 : ℝ := -3.4249470629
noncomputable def EOS202_e80 : ℝ := 2.0542026429
noncomputable def EOS012_e80 : ℝ := 2.1836324814
noncomputable def EOS112_e80 : ℝ := -3.4453674320e-01
noncomputable def EOS022_e80 : ℝ := -1.2548163097
noncomputable def EOS003_e80 : ℝ := 1.8729078427e-02
noncomputable def EOS103_e80 : ℝ := -5.7238495240e-02
noncomputable def EOS013_e80 : ℝ := 3.8306136687e-01
noncomputable def ALP000_t10 : ℝ := -6.5025362670e-01
noncomputable def ALP100_t10 : ℝ := 1.6320471316
noncomputable def ALP200_t10 : ℝ := -2.0442606277
noncomputable def ALP300_t10 : ℝ := 1.4222011580
noncomputable def ALP400_t10 : ℝ := -4.4204535284e-01
noncomputable def ALP500_t10 : ℝ := 4.7983755487e-02
noncomputable def ALP010_t10 : ℝ := 1.8537085209
noncomputable def ALP110_t10 : ℝ := -3.0774129064
noncomputable def ALP210_t10 : ℝ := 3.0181275751
noncomputable def ALP310_t10 : ℝ := -1.4565010626
noncomputable def ALP410_t10 : ℝ := 2.7361846370e-01
noncomputable def ALP020_t10 : ℝ := -1.6246342147
noncomputable def ALP120_t10 : ℝ := 2.5086831352
noncomputable def ALP220_t10 : ℝ := -1.4787808849
noncomputable def ALP320_t10 : ℝ := 2.3807209899e-01
noncomputable def ALP030_t10 : ℝ := 8.3627885467e-01
noncomputable def ALP130_t10 : ℝ := -1.1311538584
noncomputable def ALP230_t10 : ℝ := 5.3563304045e-01
noncomputable def ALP040_t10 : ℝ := -6.7560904739e-02
noncomputable def ALP140_t10 : ℝ := -6.0212475204e-02
noncomputable def ALP050_t10 : ℝ := 2.8625353333e-02
noncomputable def ALP001_t10 : ℝ := 3.3340752782e-01
noncomputable def ALP101_t10 : ℝ := 1.1217528644e-01
noncomputable def ALP201_t10 : ℝ := -1.2510649515e-01
noncomputable def ALP301_t10 : ℝ := 1.6349760916e-02
noncomputable def ALP011_t10 : ℝ := -3.3540239802e-01
noncomputable def ALP111_t10 : ℝ := -1.7531540640e-01
noncomputable def ALP211_t10 : ℝ := 9.3976864981e-02
noncomputable def ALP021_t10 : ℝ := 1.8487252150e-01
noncomputable def ALP121_t10 : ℝ := 4.1307825959e-02
noncomputable def ALP031_t10 : ℝ := -5.5927935970e-02
noncomputable def ALP002_t10 : ℝ := -5.1410778748e-02
noncomputable def ALP102_t10 : ℝ := 5.3278413794e-03
noncomputable def ALP012_t10 : ℝ := 6.2099915132e-02
noncomputable def ALP003_t10 : ℝ := -9.4924551138e-03
noncomputable def BET000_t10 : ℝ := 1.0783203594e+01
noncomputable def BET100_t10 : ℝ := -4.4452095908e+01
noncomputable def BET200_t10 : ℝ := 7.6048755820e+01
noncomputable def BET300_t10 : ℝ := -6.3944280668e+01
noncomputable def BET400_t10 : ℝ := 2.6890441098e+01
noncomputable def BET500_t10 : ℝ := -4.5221697773
noncomputable def BET010_t10 : ℝ := -8.1219372432e-01
noncomputable def BET110_t10 : ℝ := 2.0346663041
noncomputable def BET210_t10 : ℝ := -2.1232895170
noncomputable def BET310_t10 : ℝ := 8.7994140485e-01
noncomputable def BET410_t10 : ℝ := -1.1939638360e-01
noncomputable def BET020_t10 : ℝ := 7.6574242289e-01
noncomputable def BET120_t10 : ℝ := -1.5019813020
noncomputable def BET220_t10 : ℝ := 1.0872489522
noncomputable def BET320_t10 : ℝ := -2.7233429080e-01
noncomputable def BET030_t10 : ℝ := -4.1615152308e-01
noncomputable def BET130_t10 : ℝ := 4.9061350869e-01
noncomputable def BET230_t10 : ℝ := -1.1847737788e-01
noncomputable def BET040_t10 : ℝ := 1.4073062708e-01
noncomputable def BET140_t10 : ℝ := -1.3327978879e-01
noncomputable def BET050_t10 : ℝ := 5.9929880134e-03
noncomputable def BET001_t10 : ℝ := -5.2937873009e-01
noncomputable def BET101_t10 : ℝ := 1.2634116779
noncomputable def BET201_t10 : ℝ := -1.1547328025
noncomputable def BET301_t10 : ℝ := 3.2870876279e-01
noncomputable def BET011_t10 : ℝ := -5.5824407214e-02
noncomputable def BET111_t10 : ℝ := 1.2451933313e-01
noncomputable def BET211_t10 : ℝ := -2.4409539932e-02
noncomputable def BET021_t10 : ℝ := 4.3623149752e-02
noncomputable def BET121_t10 : ℝ := -4.6767901790e-02
noncomputable def BET031_t10 : ℝ := -6.8523260060e-03
noncomputable def BET002_t10 : ℝ := -6.1618945251e-02
noncomputable def BET102_t10 : ℝ := 6.2255521644e-02
noncomputable def BET012_t10 : ℝ := -2.6514181169e-03
noncomputable def BET003_t10 : ℝ := -2.3025968587e-04
noncomputable def ALP000_e80 : ℝ := -2.5218796628e-01
noncomputable def ALP100_e80 : ℝ := 3.4119354654e-01
noncomputable def ALP200_e80 : ℝ := -2.2119589983e-01
noncomputable def ALP300_e80 : ℝ := 1.8082347094e-01
noncomputable def ALP400_e80 : ℝ := -3.6936026529e-02
noncomputable def ALP500_e80 : ℝ := -5.0091801383e-03
noncomputable def ALP010_e80 : ℝ := 1.2789915300
noncomputable def ALP110_e80 : ℝ := -1.2021756164
noncomputable def ALP210_e80 : ℝ := 8.4037519952e-01
noncomputable def ALP310_e80 : ℝ := -4.1905788542e-01
noncomputable def ALP410_e80 : ℝ := 9.8855300959e-02
noncomputable def ALP020_e80 : ℝ := -1.2634838399
noncomputable def ALP120_e80 : ℝ := 1.6112195176
noncomputable def ALP220_e80 : ℝ := -7.5817155402e-01
noncomputable def ALP320_e80 : ℝ := 4.7006963580e-02
noncomputable def ALP030_e80 : ℝ := 8.0812310102e-01
noncomputable def ALP130_e80 : ℝ := -1.0102374985
noncomputable def ALP230_e80 : ℝ := 4.8340368631e-01
noncomputable def ALP040_e80 : ℝ := -1.5098959754e-01
noncomputable def ALP140_e80 : ℝ := -1.4394226233e-02
noncomputable def ALP050_e80 : ℝ := 3.6780433255e-02
noncomputable def ALP001_e80 : ℝ := 3.9631611467e-01
noncomputable def ALP101_e80 : ℝ := 1.9159845880e-02
noncomputable def ALP201_e80 : ℝ := -1.0286156825e-01
noncomputable def ALP301_e80 : ℝ := 1.6738969362e-02
noncomputable def ALP011_e80 : ℝ := -4.9997430930e-01
noncomputable def ALP111_e80 : ℝ := 9.7335338937e-03
noncomputable def ALP211_e80 : ℝ := 6.0887771651e-02
noncomputable def ALP021_e80 : ℝ := 2.6149576513e-01
noncomputable def ALP121_e80 : ℝ := -1.6671866715e-02
noncomputable def ALP031_e80 : ℝ := -5.9503008642e-02
noncomputable def ALP002_e80 : ℝ := -5.4590812035e-02
noncomputable def ALP102_e80 : ℝ := 8.6134185799e-03
noncomputable def ALP012_e80 : ℝ := 6.2740815484e-02
noncomputable def ALP003_e80 : ℝ := -9.5765341718e-03
noncomputable def BET000_e80 : ℝ := 2.1420623987
noncomputable def BET100_e80 : ℝ := -9.3752598635
noncomputable def BET200_e80 : ℝ := 1.9446303907e+01
noncomputable def BET300_e80 : ℝ := -1.8632235232e+01
noncomputable def BET400_e80 : ℝ := 8.9390837485
noncomputable def BET500_e80 : ℝ := -1.7142465871
noncomputable def BET010_e80 : ℝ := -1.7059677327e-01
noncomputable def BET110_e80 : ℝ := 2.2119589983e-01
noncomputable def BET210_e80 : ℝ := -2.7123520642e-01
noncomputable def BET310_e80 : ℝ := 7.3872053057e-02
noncomputable def BET410_e80 : ℝ := 1.2522950346e-02
noncomputable def BET020_e80 : ℝ := 3.0054390409e-01
noncomputable def BET120_e80 : ℝ := -4.2018759976e-01
noncomputable def BET220_e80 : ℝ := 3.1429341406e-01
noncomputable def BET320_e80 : ℝ := -9.8855300959e-02
noncomputable def BET030_e80 : ℝ := -2.6853658626e-01
noncomputable def BET130_e80 : ℝ := 2.5272385134e-01
noncomputable def BET230_e80 : ℝ := -2.3503481790e-02
noncomputable def BET040_e80 : ℝ := 1.2627968731e-01
noncomputable def BET140_e80 : ℝ := -1.2085092158e-01
noncomputable def BET050_e80 : ℝ := 1.4394226233e-03
noncomputable def BET001_e80 : ℝ := -2.2271304375e-01
noncomputable def BET101_e80 : ℝ := 5.5453416919e-01
noncomputable def BET201_e80 : ℝ := -6.2815936268e-01
noncomputable def BET301_e80 : ℝ := 2.0601115202e-01
noncomputable def BET011_e80 : ℝ := -9.5799229402e-03
noncomputable def BET111_e80 : ℝ := 1.0286156825e-01
noncomputable def BET211_e80 : ℝ := -2.5108454043e-02
noncomputable def BET021_e80 : ℝ := -2.4333834734e-03
noncomputable def BET121_e80 : ℝ := -3.0443885826e-02
noncomputable def BET031_e80 : ℝ := 2.7786444526e-03
noncomputable def BET002_e80 : ℝ := -4.2811838287e-02
noncomputable def BET102_e80 : ℝ := 5.1355066072e-02
noncomputable def BET012_e80 : ℝ := -4.3067092900e-03
noncomputable def BET003_e80 : ℝ := -7.1548119050e-04
noncomputable def zn3_t10 (zt zs : ℝ) : ℝ := EOS013_t10 * zt + EOS103_t10 * zs + EOS003_t10
noncomputable def zn2_t10 (zt zs : ℝ) : ℝ := (EOS022_t10 * zt + EOS112_t10 * zs + EOS012_t10) * zt + (EOS202_t10 * zs + EOS102_t10) * zs + EOS002_t10
noncomputable def zn1_t10 (zt zs : ℝ) : ℝ := (((EOS041_t10 * zt + EOS131_t10 * zs + EOS031_t10) * zt + (EOS221_t10 * zs + EOS121_t10) * zs + EOS021_t10) * zt + ((EOS311_t10 * zs + EOS211_t10) * zs + EOS111_t10) * zs + EOS011_t10) * zt + (((EOS401_t10 * zs + EOS301_t10) * zs + EOS201_t10) * zs + EOS101_t10) * zs + EOS001_t10
noncomputable def zn0_t10 (zt zs : ℝ) : ℝ := (((((EOS060_t10 * zt + EOS150_t10 * zs + EOS050_t10) * zt + (EOS240_t10 * zs + EOS140_t10) * zs + EOS040_t10) * zt + ((EOS330_t10 * zs + EOS230_t10) * zs + EOS130_t10) * zs + EOS030_t10) * zt + (((EOS420_t10 * zs + EOS320_t10) * zs + EOS220_t10) * zs + EOS120_t10) * zs + EOS020_t10) * zt + ((((EOS510_t10 * zs + EOS410_t10) * zs + EOS310_t10) * zs + EOS210_t10) * zs + EOS110_t10) * zs + EOS010_t10) * zt + (((((EOS600_t10 * zs + EOS500_t10) * zs + EOS400_t10) * zs + EOS300_t10) * zs + EOS200_t10) * zs + EOS100_t10) * zs + EOS000_t10
noncomputable def zn3_e80 (zt zs : ℝ) : ℝ := EOS013_e80 * zt + EOS103_e80 * zs + EOS003_e80
noncomputable def zn2_e80 (zt zs : ℝ) : ℝ := (EOS022_e80 * zt + EOS112_e80 * zs + EOS012_e80) * zt + (EOS202_e80 * zs + EOS102_e80) * zs + EOS002_e80
noncomputable def zn1_e80 (zt zs : ℝ) : ℝ := (((EOS041_e80 * zt + EOS131_e80 * zs + EOS031_e80) * zt + (EOS221_e80 * zs + EOS121_e80) * zs + EOS021_e80) * zt + ((EOS311_e80 * zs + EOS211_e80) * zs + EOS111_e80) * zs + EOS011_e80) * zt + (((EOS401_e80 * zs + EOS301_e80) * zs + EOS201_e80) * zs + EOS101_e80) * zs + EOS001_e80
noncomputable def zn0_e80 (zt zs : ℝ) : ℝ := (((((EOS060_e80 * zt + EOS150_e80 * zs + EOS050_e80) * zt + (EOS240_e80 * zs + EOS140_e80) * zs + EOS040_e80) * zt + ((EOS330_e80 * zs + EOS230_e80) * zs + EOS130_e80) * zs + EOS030_e80) * zt + (((EOS420_e80 * zs + EOS320_e80) * zs + EOS220_e80) * zs + EOS120_e80) * zs + EOS020_e80) * zt + ((((EOS510_e80 * zs + EOS410_e80) * zs + EOS310_e80) * zs + EOS210_e80) * zs + EOS110_e80) * zs + EOS010_e80) * zt + (((((EOS600_e80 * zs + EOS500_e80) * zs + EOS400_e80) * zs + EOS300_e80) * zs + EOS200_e80) * zs + EOS100_e80) * zs + EOS000_e80
noncomputable def zn3a_t10 (zt zs : ℝ) : ℝ := ALP003_t10
noncomputable def zn2a_t10 (zt zs : ℝ) : ℝ := ALP012_t10 * zt + ALP102_t10 * zs + ALP002_t10
noncomputable def zn1a_t10 (zt zs : ℝ) : ℝ := ((ALP031_t10 * zt + ALP121_t10 * zs + ALP021_t10) * zt + (ALP211_t10 * zs + ALP111_t10) * zs + ALP011_t10) * zt + ((ALP301_t10 * zs + ALP201_t10) * zs + ALP101_t10) * zs + ALP001_t10
noncomputable def zn0a_t10 (zt zs : ℝ) : ℝ := ((((ALP050_t10 * zt + ALP140_t10 * zs + ALP040_t10) * zt + (ALP230_t10 * zs + ALP130_t10) * zs + ALP030_t10) * zt + ((ALP320_t10 * zs + ALP220_t10) * zs + ALP120_t10) * zs + ALP020_t10) * zt + (((ALP410_t10 * zs + ALP310_t10) * zs + ALP210_t10) * zs + ALP110_t10) * zs + ALP010_t10) * zt + ((((ALP500_t10 * zs + ALP400_t10) * zs + ALP300_t10) * zs + ALP200_t10) * zs + ALP100_t10) * zs + ALP000_t10
noncomputable def zn3b_t10 (zt zs : ℝ) : ℝ := BET003_t10
noncomputable def zn2b_t10 (zt zs : ℝ) : ℝ := BET012_t10 * zt + BET102_t10 * zs + BET002_t10
noncomputable def zn1b_t10 (zt zs : ℝ) : ℝ := ((BET031_t10 * zt + BET121_t10 * zs + BET021_t10) * zt + (BET211_t10 * zs + BET111_t10) * zs + BET011_t10) * zt + ((BET301_t10 * zs + BET201_t10) * zs + BET101_t10) * zs + BET001_t10
noncomputable def zn0b_t10 (zt zs : ℝ) : ℝ := ((((BET050_t10 * zt + BET140_t10 * zs + BET040_t10) * zt + (BET230_t10 * zs + BET130_t10) * zs + BET030_t10) * zt + ((BET320_t10 * zs + BET220_t10) * zs + BET120_t10) * zs + BET020_t10) * zt + (((BET410_t10 * zs + BET310_t10) * zs + BET210_t10) * zs + BET110_t10) * zs + BET010_t10) * zt + ((((BET500_t10 * zs + BET400_t10) * zs + BET300_t10) * zs + BET200_t10) * zs + BET100_t10) * zs + BET000_t10
noncomputable def zn3a_e80 (zt zs : ℝ) : ℝ := ALP003_e80
noncomputable def zn2a_e80 (zt zs : ℝ) : ℝ := ALP012_e80 * zt + ALP102_e80 * zs + ALP002_e80
noncomputable def zn1a_e80 (zt zs : ℝ) : ℝ := ((ALP031_e80 * zt + ALP121_e80 * zs + ALP021_e80) * zt + (ALP211_e80 * zs + ALP111_e80) * zs + ALP011_e80) * zt + ((ALP301_e80 * zs + ALP201_e80) * zs + ALP101_e80) * zs + ALP001_e80
noncomputable def zn0a_e80 (zt zs : ℝ) : ℝ := ((((ALP050_e80 * zt + ALP140_e80 * zs + ALP040_e80) * zt + (ALP230_e80 * zs + ALP130_e80) * zs + ALP030_e80) * zt + ((ALP320_e80 * zs + ALP220_e80) * zs + ALP120_e80) * zs + ALP020_e80) * zt + (((ALP410_e80 * zs + ALP310_e80) * zs + ALP210_e80) * zs + ALP110_e80) * zs + ALP010_e80) * zt + ((((ALP500_e80 * zs + ALP400_e80) * zs + ALP300_e80) * zs + ALP200_e80) * zs + ALP100_e80) * zs + ALP000_e80
noncomputable def zn3b_e80 (zt zs : ℝ) : ℝ := BET003_e80
noncomputable def zn2b_e80 (zt zs : ℝ) : ℝ := BET012_e80 * zt + BET102_e80 * zs + BET002_e80
noncomputable def zn1b_e80 (zt zs : ℝ) : ℝ := ((BET031_e80 * zt + BET121_e80 * zs + BET021_e80) * zt + (BET211_e80 * zs + BET111_e80) * zs + BET011_e80) * zt + ((BET301_e80 * zs + BET201_e80) * zs + BET101_e80) * zs + BET001_e80
noncomputable def zn0b_e80 (zt zs : ℝ) : ℝ := ((((BET050_e80 * zt + BET140_e80 * zs + BET040_e80) * zt + (BET230_e80 * zs + BET130_e80) * zs + BET030_e80) * zt + ((BET320_e80 * zs + BET220_e80) * zs + BET120_e80) * zs + BET020_e80) * zt + (((BET410_e80 * zs + BET310_e80) * zs + BET210_e80) * zs + BET110_e80) * zs + BET010_e80) * zt + ((((BET500_e80 * zs + BET400_e80) * zs + BET300_e80) * zs + BET200_e80) * zs + BET100_e80) * zs + BET000_e80

/-- Default value of the seos namelist parameter rn_a0 in eos.py. -/
noncomputable def rn_a0_default : ℝ := 1.655e-1

/-- Default value of the seos namelist parameter rn_b0 in eos.py. -/
noncomputable def rn_b0_default : ℝ := 7.655e-1

/-- Default value of the seos namelist parameter rn_nu in eos.py. -/
noncomputable def rn_nu_default : ℝ := 2.4341e-3

/-- Default value of the seos namelist parameter rn_lambda1 in eos.py. -/
noncomputable def rn_lambda1_default : ℝ := 5.9520e-2

/-- Default value of the seos namelist parameter rn_lambda2 in eos.py. -/
noncomputable def rn_lambda2_default : ℝ := 7.4914e-4

/-- Default value of the seos namelist parameter rn_mu1 in eos.py. -/
noncomputable def rn_mu1_default : ℝ := 1.4970e-4

/-- Default value of the seos namelist parameter rn_mu2 in eos.py. -/
noncomputable def rn_mu2_default : ℝ := 1.1090e-5

/-- Embedding of calc_seos from eos.py: the insitu density of the simplified
equation of state.  The seven namelist parameters are explicit arguments; the
source gives them the default values recorded above. -/
noncomputable def calc_seos (S T Z rn_a0 rn_b0 rn_nu rn_lambda1 rn_lambda2
    rn_mu1 rn_mu2 : ℝ) : ℝ :=
  let rho_0 : ℝ := 1026
  let T0 : ℝ := 10
  let S0 : ℝ := 35
  let dT := T - T0
  let dS := S - S0
  rho_0
    - rn_a0 * (1 + 0.5 * rn_lambda1 * dT) * dT
    + rn_b0 * (1 - 0.5 * rn_lambda2 * dS) * dS
    - rn_nu * dT * dS
    - (rn_a0 * rn_mu1 * dT + rn_b0 * rn_mu2 * dS) * Z

/-- Embedding of calc_seos_s_t from eos.py: the pair (beta, alpha) of partial
derivatives of the simplified equation of state, salinity derivative first. -/
noncomputable def calc_seos_s_t (S T Z rn_a0 rn_b0 rn_nu rn_lambda1 rn_lambda2
    rn_mu1 rn_mu2 : ℝ) : ℝ × ℝ :=
  let T0 : ℝ := 10
  let S0 : ℝ := 35
  let dT := T - T0
  let dS := S - S0
  let beta := rn_b0 * (1 - rn_lambda2 * dS) - rn_nu * dT - rn_b0 * rn_mu2 * Z
  let alpha := -rn_a0 * (1 + rn_lambda1 * dT) - rn_nu * dS - rn_a0 * rn_mu1 * Z
  (beta, alpha)

/-- Embedding of calc_eos from eos.py: insitu density for the teos10 or eos80
equation of state.  The unknown-variant branch of the source prints a message
and returns None, embedded here as none. -/
noncomputable def calc_eos (S T Z : ℝ) (eos_name : String) : Option ℝ :=
  if eos_name = "teos10" then
    let zh := Z * r1_Z0_t10
    let zt := T * r1_T0_t10
    let zs := Real.sqrt (|S + rdeltaS_t10| * r1_S0_t10)
    some (((zn3_t10 zt zs * zh + zn2_t10 zt zs) * zh + zn1_t10 zt zs) * zh
      + zn0_t10 zt zs)
  else if eos_name = "eos80" then
    let zh := Z * r1_Z0_e80
    let zt := T * r1_T0_e80
    let zs := Real.sqrt (|S + rdeltaS_e80| * r1_S0_e80)
    some (((zn3_e80 zt zs * zh + zn2_e80 zt zs) * zh + zn1_e80 zt zs) * zh
      + zn0_e80 zt zs)
  else
    none

/-- Embedding of calc_eos_s_t from eos.py: the pair (beta, alpha) of partial
derivatives for the teos10 or eos80 equation of state, salinity derivative
first; beta is obtained by dividing the haline Horner value by zs.  The
unknown-variant branch of the source prints a message and returns None,
embedded here as none. -/
noncomputable def calc_eos_s_t (S T Z : ℝ) (eos_name : String) :
    Option (ℝ × ℝ) :=
  if eos_name = "teos10" then
    let zh := Z * r1_Z0_t10
    let zt := T * r1_T0_t10
    let zs := Real.sqrt (|S + rdeltaS_t10| * r1_S0_t10)
    let alpha := ((zn3a_t10 zt zs * zh + zn2a_t10 zt zs) * zh
      + zn1a_t10 zt zs) * zh + zn0a_t10 zt zs
    let zn := ((zn3b_t10 zt zs * zh + zn2b_t10 zt zs) * zh
      + zn1b_t10 zt zs) * zh + zn0b_t10 zt zs
    let beta := zn / zs
    some (beta, alpha)
  else if eos_name = "eos80" then
    let zh := Z * r1_Z0_e80
    let zt := T * r1_T0_e80
    let zs := Real.sqrt (|S + rdeltaS_e80| * r1_S0_e80)
    let alpha := ((zn3a_e80 zt zs * zh + zn2a_e80 zt zs) * zh
      + zn1a_e80 zt zs) * zh + zn0a_e80 zt zs
    let zn := ((zn3b_e80 zt zs * zh + zn2b_e80 zt zs) * zh
      + zn1b_e80 zt zs) * zh + zn0b_e80 zt zs
    let beta := zn / zs
    some (beta, alpha)
  else
    none

/-- Embedding of NEMO_eos from eos.py: binds a variant name and the seos
parameters into an (eos, eos_s_t) pair of callables.  The external
neutralocean wrappers make_eos and make_eos_s_t are an adaptation layer that
leaves the pointwise values unchanged, so they are embedded as the identity;
the unknown-variant branch of the source prints a message and returns None,
embedded here as none. -/
noncomputable def NEMO_eos (eos_name : String) (rn_a0 rn_b0 rn_nu rn_lambda1
    rn_lambda2 rn_mu1 rn_mu2 : ℝ) :
    Option ((ℝ → ℝ → ℝ → Option ℝ) × (ℝ → ℝ → ℝ → Option (ℝ × ℝ))) :=
  if eos_name = "teos10" ∨ eos_name = "eos80" then
    some (fun S T Z => calc_eos S T Z eos_name,
          fun S T Z => calc_eos_s_t S T Z eos_name)
  else if eos_name = "seos" then
    some (fun S T Z => some (calc_seos S T Z rn_a0 rn_b0 rn_nu rn_lambda1
            rn_lambda2 rn_mu1 rn_mu2),
          fun S T Z => some (calc_seos_s_t S T Z rn_a0 rn_b0 rn_nu rn_lambda1
            rn_lambda2 rn_mu1 rn_mu2))
  else
    none

/-- A 2-dimensional array of cell widths: the embedding of an xarray DataArray
as consumed by grid.py.  The entries are a total function of the (j, i)
index, which also mirrors numpy broadcasting of size-1 axes. -/
structure Array2 where
  ny : ℕ
  nx : ℕ
  data : ℕ → ℕ → ℚ

/-- One edge of the neutralocean grid graph: the endpoint linear indices a
and b together with the aligned dist and distperp entries. -/
structure GridEdge where
  a : ℕ
  b : ℕ
  dist : ℚ
  distperp : ℚ

/-- The hgriddata dictionary consumed by build_nemo_hgrid: the four C-grid
cell-width arrays. -/
structure Hgriddata where
  e1u : Array2
  e1v : Array2
  e2u : Array2
  e2v : Array2

/-- Embedding of the Python str.lower method for the ASCII grid-type
selectors used by grid.py. -/
def str_lower (s : String) : String := String.mk (s.data.map Char.toLower)

/-- Row-major linear index of the water column at row j, column i. -/
def node (nx j i : ℕ) : ℕ := j * nx + i

/-- Modelled from the spec: neutralocean.grid.rectilinear.build_grid, an
external library function not present in src/.  Per the spec, for each
interior and (if the direction is periodic) wrap-around pair of adjacent
columns it emits one edge whose dist is the across-face centre spacing taken
from the other direction's width array and whose distperp is the local face
width; non-periodic boundaries omit the wrap-around edge.  Dimension 1 is j
(rows, extent ny) and dimension 2 is i (columns, extent nx), matching the
(dims, periodic, dxC, dyC, dxG, dyG) calling convention of the library. -/
def build_grid_rect (ny nx : ℕ) (perio1 perio2 : Bool)
    (dxC dyC dxG dyG : ℕ → ℕ → ℚ) : List GridEdge :=
  let jmax := if perio1 then ny else ny - 1
  let imax := if perio2 then nx else nx - 1
  let edges1 := (List.range jmax).flatMap (fun j =>
    (List.range nx).map (fun i =>
      ⟨node nx j i, node nx ((j + 1) % ny) i, dxC j i, dxG j i⟩))
  let edges2 := (List.range ny).flatMap (fun j =>
    (List.range imax).map (fun i =>
      ⟨node nx j i, node nx j ((i + 1) % nx), dyC j i, dyG j i⟩))
  edges1 ++ edges2

/-- Modelled from the spec: neutralocean.grid.tripolar.build_grid, an
external library function not present in src/.  The spec fixes only that the
interior-edge rule is identical to the rectilinear case, that the wrap rules
are topology-fixed (the global ORCA grid is periodic in i and not in j), and
that fold-aware stitching at the northern boundary connects columns that are
geometrically adjacent across the tripolar seam; the seam is modelled as the
standard ORCA pairing of the top row with its own reversal. -/
def build_grid_orca (ny nx : ℕ) (e1u e2u e1v e2v : ℕ → ℕ → ℚ) :
    List GridEdge :=
  let interior := build_grid_rect ny nx false true e2v e1u e2u e1v
  let fold := (List.range (nx / 2)).map (fun i =>
    ⟨node nx (ny - 1) i, node nx (ny - 1) (nx - 1 - i),
      e2v (ny - 1) i, e1v (ny - 1) i⟩)
  interior ++ fold

/-- Embedding of build_nemo_hgrid from grid.py.  The shape is taken from the
last two axes of e1u alone, exactly as in the source; no shape consistency
check is performed on the other three arrays.  The rectilinear branch passes
dyC = e1u, dxC = e2v, dyG = e1v, dxG = e2u and periodic = (jperio, iperio)
to the external rectilinear builder, the orca branch passes the four arrays
to the external tripolar builder, and any other selector raises ValueError,
embedded as Except.error. -/
def build_nemo_hgrid (hgriddata : Hgriddata) ( iperio jperio : Bool)
    (gridtype : String) : Except String (List GridEdge) :=
  let e1u := hgriddata.e1u
  let e1v := hgriddata.e1v
  let e2u := hgriddata.e2u
  let e2v := hgriddata.e2v
  let shape := (e1u.ny, e1u.nx)
  if str_lower gridtype = "rectilinear" then
    Except.ok (build_grid_rect shape.1 shape.2 jperio iperio
      e2v.data e1u.data e2u.data e1v.data)
  else if str_lower gridtype = "orca" then
    Except.ok (build_grid_orca shape.1 shape.2
      e1u.data e2u.data e1v.data e2v.data)
  else
    Except.error (gridtype ++ " is not a supported grid type")

/-- A 3 by 3 array with every entry equal to 1. -/
def unitArr33 : Array2 := ⟨3, 3, fun _ _ => 1⟩

/-- A 1 by 1 array with every entry equal to 1. -/
def unitArr11 : Array2 := ⟨1, 1, fun _ _ => 1⟩

/-- The uniform 3 by 3 unit-width grid input of the rectilinear test. -/
def hgrid_unit33 : Hgriddata := ⟨unitArr33, unitArr33, unitArr33, unitArr33⟩

/-- A grid input whose e1v array has a shape different from the other three
arrays (1 by 1 against 3 by 3). -/
def hgrid_mismatch : Hgriddata := ⟨unitArr33, unitArr11, unitArr33, unitArr33⟩

/-- Claim C1: for every real S, T, Z and every choice of the seven seos
coefficients, calc_seos returns exactly
rho0 - rn_a0*(1 + 0.5*rn_lambda1*dT)*dT + rn_b0*(1 - 0.5*rn_lambda2*dS)*dS
- rn_nu*dT*dS - (rn_a0*rn_mu1*dT + rn_b0*rn_mu2*dS)*Z, with dT = T - 10,
dS = S - 35 and rho0 = 1026. -/
theorem calc_seos_formula (S T Z rn_a0 rn_b0 rn_nu rn_lambda1 rn_lambda2
    rn_mu1 rn_mu2 : ℝ) :
    calc_seos S T Z rn_a0 rn_b0 rn_nu rn_lambda1 rn_lambda2 rn_mu1 rn_mu2 =
      1026
        - rn_a0 * (1 + 0.5 * rn_lambda1 * (T - 10)) * (T - 10)
        + rn_b0 * (1 - 0.5 * rn_lambda2 * (S - 35)) * (S - 35)
        - rn_nu * (T - 10) * (S - 35)
        - (rn_a0 * rn_mu1 * (T - 10) + rn_b0 * rn_mu2 * (S - 35)) * Z := rfl

/-- Claim C8: with the default coefficients, calc_seos at S = 35, T = 10,
Z = 0 returns exactly 1026, since dT = dS = 0 makes every correction term
exactly zero. -/
theorem calc_seos_reference_point :
    calc_seos 35 10 0 rn_a0_default rn_b0_default rn_nu_default
      rn_lambda1_default rn_lambda2_default rn_mu1_default rn_mu2_default
      = 1026 := by
  simp only [calc_seos]
  ring_nf

/-- Claim C5 (failing input): for the unknown variant name "xyz" the code of
calc_eos, calc_eos_s_t and NEMO_eos prints a message and returns None
(embedded: none) instead of signalling an UnsupportedVariant error. -/
theorem eos_unknown_variant_returns_none :
    calc_eos 35 10 0 "xyz" = none ∧
    calc_eos_s_t 35 10 0 "xyz" = none ∧
    NEMO_eos "xyz" rn_a0_default rn_b0_default rn_nu_default
      rn_lambda1_default rn_lambda2_default rn_mu1_default rn_mu2_default
      = none := ⟨rfl, rfl, rfl⟩

/-- Claim C6 (counterexample): build_nemo_hgrid performs no shape-consistency
check: with e1v of shape 1 by 1 against the other arrays of shape 3 by 3
(a mismatch that numpy broadcasting also lets through silently), the
rectilinear branch succeeds instead of signalling a ConfigurationError. -/
theorem build_nemo_hgrid_no_shape_check :
    hgrid_mismatch.e1u.ny = 3 ∧ hgrid_mismatch.e1u.nx = 3 ∧
    hgrid_mismatch.e1v.ny = 1 ∧ hgrid_mismatch.e1v.nx = 1 ∧
    ∃ g, build_nemo_hgrid hgrid_mismatch false false "rectilinear"
      = Except.ok g :=
  ⟨rfl, rfl, rfl, rfl, ⟨_, rfl⟩⟩

/-- Claim C6 (amended): build_nemo_hgrid raises (fails loudly, embedded as
Except.error) on every grid-type selector whose lower-casing is neither
"rectilinear" nor "orca"; it performs no shape validation on the four width
arrays. -/
theorem build_nemo_hgrid_unknown_gridtype_errors (hg : Hgriddata)
    ( iperio jperio : Bool) (gridtype : String)
    (h1 : str_lower gridtype ≠ "rectilinear")
    (h2 : str_lower gridtype ≠ "orca") :
    ∃ msg, build_nemo_hgrid hg iperio jperio gridtype = Except.error msg := by
  refine ⟨gridtype ++ " is not a supported grid type", ?_⟩
  simp only [build_nemo_hgrid, if_neg h1, if_neg h2]

/-- Witness for the amended claim C6 at the concrete selector
"curvilinear". -/
theorem build_nemo_hgrid_unknown_gridtype_errors_witness :
    ∃ msg, build_nemo_hgrid hgrid_unit33 false false "curvilinear"
      = Except.error msg :=
  build_nemo_hgrid_unknown_gridtype_errors hgrid_unit33 false false
    "curvilinear" (by decide) (by decide)

/-- Claim C7: on the 3 by 3 rectilinear grid of uniform unit cell widths with
both periodicity flags false, build_nemo_hgrid produces exactly 12 edges and
every edge has dist = distperp = 1. -/
theorem build_nemo_hgrid_3x3_unit_edges :
    ∃ g, build_nemo_hgrid hgrid_unit33 false false "rectilinear"
        = Except.ok g ∧
      g.length = 12 ∧ ∀ e ∈ g, e.dist = 1 ∧ e.distperp = 1 := by
  refine ⟨_, rfl, ?_, ?_⟩ <;> decide

/-- Claim C10: build_nemo_hgrid matches its gridtype selector
case-insensitively: any selector lower-casing to "rectilinear" or "orca"
produces the same result as the lower-case selector, and every other
selector is rejected. -/
theorem build_nemo_hgrid_case_insensitive (hg : Hgriddata)
    ( iperio jperio : Bool) (gridtype : String) :
    (str_lower gridtype = "rectilinear" →
      build_nemo_hgrid hg iperio jperio gridtype
        = build_nemo_hgrid hg iperio jperio "rectilinear")
    ∧ (str_lower gridtype = "orca" →
      build_nemo_hgrid hg iperio jperio gridtype
        = build_nemo_hgrid hg iperio jperio "orca")
    ∧ (str_lower gridtype ≠ "rectilinear" → str_lower gridtype ≠ "orca" →
      ∃ msg, build_nemo_hgrid hg iperio jperio gridtype
        = Except.error msg) := by
  have hr : str_lower "rectilinear" = "rectilinear" := by decide
  have ho : str_lower "orca" = "orca" := by decide
  refine ⟨fun h1 => ?_, fun h2 => ?_, fun h1 h2 => ?_⟩
  · simp [build_nemo_hgrid, h1, hr]
  · simp [build_nemo_hgrid, h2, ho]
  · refine ⟨gridtype ++ " is not a supported grid type", ?_⟩
    simp only [build_nemo_hgrid, if_neg h1, if_neg h2]

/-- Witness for claim C10 at the concrete selectors "Rectilinear", "ORCA"
and "curvilinear". -/
theorem build_nemo_hgrid_case_insensitive_witness :
    build_nemo_hgrid hgrid_unit33 false false "Rectilinear"
      = build_nemo_hgrid hgrid_unit33 false false "rectilinear"
    ∧ build_nemo_hgrid hgrid_unit33 false false "ORCA"
      = build_nemo_hgrid hgrid_unit33 false false "orca"
    ∧ ∃ msg, build_nemo_hgrid hgrid_unit33 false false "curvilinear"
      = Except.error msg :=
  ⟨(build_nemo_hgrid_case_insensitive hgrid_unit33 false false
      "Rectilinear").1 (by decide),
   (build_nemo_hgrid_case_insensitive hgrid_unit33 false false
      "ORCA").2.1 (by decide),
   (build_nemo_hgrid_case_insensitive hgrid_unit33 false false
      "curvilinear").2.2 (by decide) (by decide)⟩

/-- Claim C2: for the teos10 and eos80 variants and every real S, T, Z,
calc_eos first rescales its inputs as zh = Z*r1_Z0, zt = T*r1_T0,
zs = sqrt(|S + rdeltaS|*r1_S0) — total in S because the absolute value is
taken before the square root — then evaluates the variant's fixed nested
Horner polynomials zn0, zn1, zn2, zn3 in (zt, zs) and returns exactly
((zn3*zh + zn2)*zh + zn1)*zh + zn0.  The numeric scaling constants are
written out per variant. -/
theorem calc_eos_horner_structure (S T Z : ℝ) :
    calc_eos S T Z "teos10" =
      some (((zn3_t10 (T * (1/40)) (Real.sqrt (|S + 32| * (0.875/35.16504)))
                * (Z * 1e-4)
              + zn2_t10 (T * (1/40))
                  (Real.sqrt (|S + 32| * (0.875/35.16504)))) * (Z * 1e-4)
              + zn1_t10 (T * (1/40))
                  (Real.sqrt (|S + 32| * (0.875/35.16504)))) * (Z * 1e-4)
              + zn0_t10 (T * (1/40))
                  (Real.sqrt (|S + 32| * (0.875/35.16504))))
    ∧ calc_eos S T Z "eos80" =
      some (((zn3_e80 (T * (1/40)) (Real.sqrt (|S + 20| * (1/40)))
                * (Z * 1e-4)
              + zn2_e80 (T * (1/40))
                  (Real.sqrt (|S + 20| * (1/40)))) * (Z * 1e-4)
              + zn1_e80 (T * (1/40))
                  (Real.sqrt (|S + 20| * (1/40)))) * (Z * 1e-4)
              + zn0_e80 (T * (1/40))
                  (Real.sqrt (|S + 20| * (1/40)))) :=
  ⟨rfl, rfl⟩

/-- Claim C9: for the teos10 and eos80 variants, calc_eos and calc_eos_s_t
depend on S only through |S + rdeltaS|, and consequently the density is
mirror-symmetric about the pole S = -rdeltaS: for every real S, T, Z,
calc_eos S T Z = calc_eos (-2*rdeltaS - S) T Z. -/
theorem calc_eos_mirror_symmetry :
    (∀ S Sm T Z : ℝ, |S + 32| = |Sm + 32| →
      calc_eos S T Z "teos10" = calc_eos Sm T Z "teos10" ∧
      calc_eos_s_t S T Z "teos10" = calc_eos_s_t Sm T Z "teos10")
    ∧ (∀ S Sm T Z : ℝ, |S + 20| = |Sm + 20| →
      calc_eos S T Z "eos80" = calc_eos Sm T Z "eos80" ∧
      calc_eos_s_t S T Z "eos80" = calc_eos_s_t Sm T Z "eos80")
    ∧ (∀ S T Z : ℝ,
      calc_eos S T Z "teos10" = calc_eos (-2 * 32 - S) T Z "teos10")
    ∧ (∀ S T Z : ℝ,
      calc_eos S T Z "eos80" = calc_eos (-2 * 20 - S) T Z "eos80") := by
  have key10 : ∀ S Sm T Z : ℝ, |S + 32| = |Sm + 32| →
      calc_eos S T Z "teos10" = calc_eos Sm T Z "teos10" ∧
      calc_eos_s_t S T Z "teos10" = calc_eos_s_t Sm T Z "teos10" := by
    intro S Sm T Z h
    constructor
    · simp [calc_eos, rdeltaS_t10, h]
    · simp [calc_eos_s_t, rdeltaS_t10, h]
  have key80 : ∀ S Sm T Z : ℝ, |S + 20| = |Sm + 20| →
      calc_eos S T Z "eos80" = calc_eos Sm T Z "eos80" ∧
      calc_eos_s_t S T Z "eos80" = calc_eos_s_t Sm T Z "eos80" := by
    intro S Sm T Z h
    constructor
    · simp [calc_eos, rdeltaS_e80, h]
    · simp [calc_eos_s_t, rdeltaS_e80, h]
  have m10 : ∀ S : ℝ, |S + 32| = |(-2 * 32 - S : ℝ) + 32| := by
    intro S
    have e : (-2 * 32 - S : ℝ) + 32 = -(S + 32) := by ring
    rw [e, abs_neg]
  have m80 : ∀ S : ℝ, |S + 20| = |(-2 * 20 - S : ℝ) + 20| := by
    intro S
    have e : (-2 * 20 - S : ℝ) + 20 = -(S + 20) := by ring
    rw [e, abs_neg]
  exact ⟨key10, key80,
    fun S T Z => (key10 S (-2 * 32 - S) T Z (m10 S)).1,
    fun S T Z => (key80 S (-2 * 20 - S) T Z (m80 S)).1⟩

/-- Witness for claim C9, discharging the absolute-value hypotheses at
concrete inputs. -/
theorem calc_eos_mirror_symmetry_witness :
    calc_eos 0 5 100 "teos10" = calc_eos 0 5 100 "teos10" ∧
    calc_eos_s_t 1 2 3 "eos80" = calc_eos_s_t 1 2 3 "eos80" :=
  ⟨(calc_eos_mirror_symmetry.1 0 0 5 100 rfl).1,
   (calc_eos_mirror_symmetry.2.1 1 1 2 3 rfl).2⟩

/-- Shared helper: the derivative of a quadratic written in shifted form. -/
theorem hasDerivAt_qshift (c0 c1 c2 x0 x : ℝ) :
    HasDerivAt (fun y : ℝ => c0 + c1 * (y - x0) + c2 * (y - x0) ^ 2)
      (c1 + 2 * c2 * (x - x0)) x := by
  have h1 : HasDerivAt (fun y : ℝ => y - x0) 1 x :=
    (hasDerivAt_id x).sub_const x0
  have h2 := h1.pow 2
  have h3 := HasDerivAt.const_mul c1 h1
  have h4 := HasDerivAt.const_mul c2 h2
  have h5 := (HasDerivAt.const_add c0 h3).add h4
  convert h5 using 1
  ring

/-- Claim C3: calc_seos_s_t returns the pair (beta, alpha) in the order
(d_rho/dS, d_rho/dT), with beta = rn_b0*(1 - rn_lambda2*dS) - rn_nu*dT
- rn_b0*rn_mu2*Z and alpha = -rn_a0*(1 + rn_lambda1*dT) - rn_nu*dS
- rn_a0*rn_mu1*Z for dT = T - 10 and dS = S - 35, and these are exactly the
partial derivatives of calc_seos with respect to S and T. -/
theorem calc_seos_s_t_partials (S T Z rn_a0 rn_b0 rn_nu rn_lambda1
    rn_lambda2 rn_mu1 rn_mu2 : ℝ) :
    calc_seos_s_t S T Z rn_a0 rn_b0 rn_nu rn_lambda1 rn_lambda2 rn_mu1
        rn_mu2 =
      (rn_b0 * (1 - rn_lambda2 * (S - 35)) - rn_nu * (T - 10)
         - rn_b0 * rn_mu2 * Z,
       -rn_a0 * (1 + rn_lambda1 * (T - 10)) - rn_nu * (S - 35)
         - rn_a0 * rn_mu1 * Z)
    ∧ HasDerivAt (fun s => calc_seos s T Z rn_a0 rn_b0 rn_nu rn_lambda1
        rn_lambda2 rn_mu1 rn_mu2)
      (rn_b0 * (1 - rn_lambda2 * (S - 35)) - rn_nu * (T - 10)
        - rn_b0 * rn_mu2 * Z) S
    ∧ HasDerivAt (fun t => calc_seos S t Z rn_a0 rn_b0 rn_nu rn_lambda1
        rn_lambda2 rn_mu1 rn_mu2)
      (-rn_a0 * (1 + rn_lambda1 * (T - 10)) - rn_nu * (S - 35)
        - rn_a0 * rn_mu1 * Z) T := by
  refine ⟨rfl, ?_, ?_⟩
  · have hfun : (fun s => calc_seos s T Z rn_a0 rn_b0 rn_nu rn_lambda1
        rn_lambda2 rn_mu1 rn_mu2)
        = fun s => (1026 - rn_a0 * (1 + 0.5 * rn_lambda1 * (T - 10))
              * (T - 10) - rn_a0 * rn_mu1 * (T - 10) * Z)
            + (rn_b0 - rn_nu * (T - 10) - rn_b0 * rn_mu2 * Z) * (s - 35)
            + (-(0.5 * rn_b0 * rn_lambda2)) * (s - 35) ^ 2 := by
      funext s
      simp only [calc_seos]
      ring
    rw [hfun]
    have h := hasDerivAt_qshift
      (1026 - rn_a0 * (1 + 0.5 * rn_lambda1 * (T - 10)) * (T - 10)
        - rn_a0 * rn_mu1 * (T - 10) * Z)
      (rn_b0 - rn_nu * (T - 10) - rn_b0 * rn_mu2 * Z)
      (-(0.5 * rn_b0 * rn_lambda2)) 35 S
    have e : rn_b0 - rn_nu * (T - 10) - rn_b0 * rn_mu2 * Z
        + 2 * (-(0.5 * rn_b0 * rn_lambda2)) * (S - 35)
        = rn_b0 * (1 - rn_lambda2 * (S - 35)) - rn_nu * (T - 10)
          - rn_b0 * rn_mu2 * Z := by ring
    rw [e] at h
    exact h
  · have hfun : (fun t => calc_seos S t Z rn_a0 rn_b0 rn_nu rn_lambda1
        rn_lambda2 rn_mu1 rn_mu2)
        = fun t => (1026 + rn_b0 * (1 - 0.5 * rn_lambda2 * (S - 35))
              * (S - 35) - rn_b0 * rn_mu2 * (S - 35) * Z)
            + (-rn_a0 - rn_nu * (S - 35) - rn_a0 * rn_mu1 * Z) * (t - 10)
            + (-(0.5 * rn_a0 * rn_lambda1)) * (t - 10) ^ 2 := by
      funext t
      simp only [calc_seos]
      ring
    rw [hfun]
    have h := hasDerivAt_qshift
      (1026 + rn_b0 * (1 - 0.5 * rn_lambda2 * (S - 35)) * (S - 35)
        - rn_b0 * rn_mu2 * (S - 35) * Z)
      (-rn_a0 - rn_nu * (S - 35) - rn_a0 * rn_mu1 * Z)
      (-(0.5 * rn_a0 * rn_lambda1)) 10 T
    have e : -rn_a0 - rn_nu * (S - 35) - rn_a0 * rn_mu1 * Z
        + 2 * (-(0.5 * rn_a0 * rn_lambda1)) * (T - 10)
        = -rn_a0 * (1 + rn_lambda1 * (T - 10)) - rn_nu * (S - 35)
          - rn_a0 * rn_mu1 * Z := by ring
    rw [e] at h
    exact h
